import Mathlib

/-!
Shallow embedding of the wallet-service transaction engine
(`src/services/walletService.js`, `src/config/db.js`,
`src/middleware/idempotency.js`, `src/middleware/errorHandler.js`,
`src/routes/wallet.js`) together with the claims checked against it.

Conventions of the embedding:
* `BIGINT` balances and amounts are Lean `Int`; `parseInt` on a numeric
  store value is the identity.
* A JavaScript `number` argument is a rational (`ℚ`): `Number.isInteger x`
  is `x.den = 1`.
* The durable store is an explicit `DBState` record; every statement of a
  transaction is a pure function of it.  `withTransaction` commits the
  final state on success and restores the initial state on error
  (`BEGIN` / `COMMIT` / `ROLLBACK`).
* Store round-trips that matter to the claims (opening a transaction,
  wallet lookup, `FOR UPDATE` lock acquisition, idempotency reads and
  writes) are recorded in an `Event` trace so that "does not lock / does
  not look up / opens no transaction" is a provable statement.
* `created_at` columns filled by the store (`DEFAULT NOW()`) are modelled
  by a logical clock: the number of transaction rows already committed.
* The fresh `uuidv4()` transaction id is an explicit argument.
-/

namespace WalletSpec

/-! ### Byte order on strings

`Array.prototype.sort()` without a comparator and `ORDER BY w.id ASC`
both order the id strings by their natural code-unit order; for the
ASCII uuid strings used as wallet ids this is the lexicographic order on
code points, embedded here as an executable comparison. -/

def charListLe : List Char → List Char → Bool
  | [], _ => true
  | _ :: _, [] => false
  | a :: as, b :: bs =>
    if a.toNat < b.toNat then true
    else if b.toNat < a.toNat then false
    else charListLe as bs

def strLe (a b : String) : Bool :=
  charListLe a.data b.data

def strLeRel (a b : String) : Prop := strLe a b = true

instance : DecidableRel strLeRel :=
  fun a b => inferInstanceAs (Decidable (strLe a b = true))

/-! ### Data model (`sql/001_schema.sql`) -/

structure AssetType where
  id : Nat
  code : String
  name : String
deriving DecidableEq, Repr

structure Wallet where
  id : String
  user_id : String
  balance : Int
  allow_negative : Bool
  version : Nat
  asset_type_id : Nat
deriving DecidableEq, Repr

inductive EntryType
  | DEBIT
  | CREDIT
deriving DecidableEq, Repr

structure Txn where
  id : String
  idempotency_key : Option String
  transaction_type : String
  status : String
  source_wallet_id : String
  dest_wallet_id : String
  asset_type_id : Nat
  amount : Int
  description : String
  metadata : String
  created_at : Nat
deriving DecidableEq, Repr

structure LedgerEntry where
  transaction_id : String
  wallet_id : String
  entry_type : EntryType
  amount : Int
  balance_before : Int
  balance_after : Int
deriving DecidableEq, Repr

/-- The service result of `executeTransfer` (the wall-clock `timestamp`
field is outside the model). -/
structure TransferResult where
  transactionId : String
  transactionType : String
  sourceWalletId : String
  sourceBalanceBefore : Int
  sourceBalanceAfter : Int
  destWalletId : String
  destBalanceBefore : Int
  destBalanceAfter : Int
  amount : Int
  description : String
deriving DecidableEq, Repr

/-- A row of `idempotency_store`.  `expired` models the outcome of the
`expires_at > NOW()` comparison at the time of the request. -/
structure IdemRecord where
  key : String
  response : TransferResult
  status_code : Nat
  expired : Bool
deriving DecidableEq, Repr

structure DBState where
  assetTypes : List AssetType
  wallets : List Wallet
  transactions : List Txn
  ledger : List LedgerEntry
  idem : List IdemRecord
deriving DecidableEq, Repr

/-- The error taxonomy raised by the service layer (`src/utils/errors.js`).
`internal` stands for an unclassified runtime failure (for example a
JavaScript `TypeError`, or a statement the store rejects). -/
inductive Err
  | Validation (msg : String)
  | NotFound (resource : String) (ident : String)
  | InsufficientBalance (walletId : String) (requested : Int) (available : Int)
  | internal
deriving DecidableEq, Repr

/-- Observable store round-trips of one request, in order. -/
inductive Event
  | beginTx
  | commitTx
  | rollbackTx
  | idemLookup (key : Option String)
  | walletLookup (userId : String) (assetCode : String)
  | locked (ids : List String)
  | idemStore (key : Option String)
deriving DecidableEq, Repr

/-- Well-known system account ids (`SYSTEM_ACCOUNTS`). -/
def TREASURY : String := "00000000-0000-0000-0000-000000000001"

def REVENUE : String := "00000000-0000-0000-0000-000000000002"

/-! ### Wallet locator and lock manager (`walletService.js`) -/

/-- The `JOIN asset_types at ON w.asset_type_id = at.id` projection. -/
def assetCodeOf (s : DBState) (w : Wallet) : Option String :=
  (s.assetTypes.find? (fun a => a.id == w.asset_type_id)).map (fun a => a.code)

/-- `findWallet(client, userId, assetCode)`. -/
def findWallet (s : DBState) (userId : String) (assetCode : String) : Except Err Wallet :=
  match s.wallets.find? (fun w => w.user_id == userId && assetCodeOf s w == some assetCode) with
  | some w => .ok w
  | none => .error (.NotFound "Wallet" ("user=" ++ userId ++ ", asset=" ++ assetCode))

/-- Sort order used for the deadlock-avoiding lock acquisition. -/
def walletLe (a b : Wallet) : Prop := strLe a.id b.id = true

instance : DecidableRel walletLe :=
  fun a b => inferInstanceAs (Decidable (strLe a.id b.id = true))

/-- `lockWalletsInOrder(client, walletIds)`: sort the ids, select the
matching wallet rows in ascending id order under `FOR UPDATE`, and fail
with `NotFound` when the row count differs from the length of the input
list.  (The source sorts but does not deduplicate `walletIds`; `id =
ANY($1)` returns each matching row once.) -/
def lockWalletsInOrder (s : DBState) (walletIds : List String) : Except Err (List Wallet) :=
  let sortedIds := List.insertionSort strLeRel walletIds
  let rows := List.insertionSort walletLe
    (s.wallets.filter (fun w => sortedIds.contains w.id))
  if rows.length ≠ walletIds.length then
    .error (.NotFound "Wallet"
      ("One or more wallets not found in: " ++ String.intercalate ", " walletIds))
  else
    .ok rows

/-- The `walletMap[row.id] = row` lookup built from the locked rows. -/
def walletMapGet (rows : List Wallet) (walletId : String) : Option Wallet :=
  rows.find? (fun w => w.id == walletId)

/-! ### Idempotency cache (`walletService.js`) -/

/-- `checkIdempotencyKey(client, key)`: `null` for an absent or falsy
key, otherwise the first non-expired stored row for the key. -/
def checkIdempotencyKey (s : DBState) (key : Option String) : Option IdemRecord :=
  match key with
  | none => none
  | some k =>
    if k = "" then none
    else s.idem.find? (fun q => q.key == k && !q.expired)

/-- `storeIdempotencyKey(client, key, response)`: insert with
`ON CONFLICT (key) DO NOTHING`. -/
def storeIdempotencyKey (s : DBState) (key : Option String) (response : TransferResult) : DBState :=
  match key with
  | none => s
  | some k =>
    if k = "" then s
    else if s.idem.any (fun q => q.key == k) then s
    else { s with idem := s.idem ++ [{ key := k, response := response, status_code := 200, expired := false }] }

/-! ### Ledger writer (`executeTransfer`) -/

structure TransferParams where
  sourceWalletId : String
  destWalletId : String
  amount : Int
  assetTypeId : Nat
  transactionType : String
  description : String
  metadata : String
  idempotencyKey : Option String
deriving DecidableEq, Repr

/-- The `UPDATE wallets SET balance = $1, version = version + 1 WHERE id = $2`
statement for the source wallet (debit side), with `$1` computed from the
locked row `sw`. -/
def debitUpdate (p : TransferParams) (sw : Wallet) (w : Wallet) : Wallet :=
  if w.id = p.sourceWalletId then
    { w with balance := sw.balance - p.amount, version := w.version + 1 }
  else w

/-- The corresponding update of the destination wallet (credit side). -/
def creditUpdate (p : TransferParams) (dw : Wallet) (w : Wallet) : Wallet :=
  if w.id = p.destWalletId then
    { w with balance := dw.balance + p.amount, version := w.version + 1 }
  else w

/-- `executeTransfer(client, {...})`: lock both wallets in sorted order,
check the balance floor on the source, apply the two balance updates,
insert the transaction row and the two ledger entries.  The match on the
locked source and destination rows follows the evaluation order of the
source (the source row is read and checked before the destination row is
touched); a missing row would be a JavaScript `TypeError`, modelled as
`Err.internal`. -/
def executeTransfer (s : DBState) (p : TransferParams) (txnId : String) :
    Except Err (TransferResult × DBState) :=
  match lockWalletsInOrder s [p.sourceWalletId, p.destWalletId] with
  | .error e => .error e
  | .ok rows =>
    match walletMapGet rows p.sourceWalletId with
    | none => .error .internal
    | some sourceWallet =>
      if sourceWallet.allow_negative = false ∧ sourceWallet.balance < p.amount then
        .error (.InsufficientBalance p.sourceWalletId p.amount sourceWallet.balance)
      else
        match walletMapGet rows p.destWalletId with
        | none => .error .internal
        | some destWallet =>
          let sourceBalanceBefore := sourceWallet.balance
          let destBalanceBefore := destWallet.balance
          let sourceBalanceAfter := sourceBalanceBefore - p.amount
          let destBalanceAfter := destBalanceBefore + p.amount
          let wallets2 := (s.wallets.map (debitUpdate p sourceWallet)).map (creditUpdate p destWallet)
          let txn : Txn :=
            { id := txnId
              idempotency_key := p.idempotencyKey
              transaction_type := p.transactionType
              status := "COMPLETED"
              source_wallet_id := p.sourceWalletId
              dest_wallet_id := p.destWalletId
              asset_type_id := p.assetTypeId
              amount := p.amount
              description := p.description
              metadata := p.metadata
              created_at := s.transactions.length }
          let debitEntry : LedgerEntry :=
            { transaction_id := txnId
              wallet_id := p.sourceWalletId
              entry_type := .DEBIT
              amount := p.amount
              balance_before := sourceBalanceBefore
              balance_after := sourceBalanceAfter }
          let creditEntry : LedgerEntry :=
            { transaction_id := txnId
              wallet_id := p.destWalletId
              entry_type := .CREDIT
              amount := p.amount
              balance_before := destBalanceBefore
              balance_after := destBalanceAfter }
          .ok
            ({ transactionId := txnId
               transactionType := p.transactionType
               sourceWalletId := p.sourceWalletId
               sourceBalanceBefore := sourceBalanceBefore
               sourceBalanceAfter := sourceBalanceAfter
               destWalletId := p.destWalletId
               destBalanceBefore := destBalanceBefore
               destBalanceAfter := destBalanceAfter
               amount := p.amount
               description := p.description },
             { s with
                wallets := wallets2
                transactions := s.transactions ++ [txn]
                ledger := s.ledger ++ [debitEntry, creditEntry] })

/-! ### Store gateway (`config/db.js`) -/

/-- `withTransaction(fn)`: `BEGIN`, run `fn` on one connection, `COMMIT`
on normal return and keep the final state, `ROLLBACK` on any error and
restore the initial state. -/
def withTransaction {α : Type} (s : DBState)
    (fn : DBState → Except Err (α × DBState) × List Event) :
    Except Err α × DBState × List Event :=
  match fn s with
  | (.ok (a, s1), ev) => (.ok a, s1, [Event.beginTx] ++ ev ++ [Event.commitTx])
  | (.error e, ev) => (.error e, s, [Event.beginTx] ++ ev ++ [Event.rollbackTx])

/-! ### Transfer orchestrator (`topUp`, `issueBonus`, `purchase`) -/

structure OpArgs where
  userId : String
  assetCode : String
  amount : ℚ
  idempotencyKey : Option String
  description : Option String
deriving DecidableEq

/-- The value a mutation endpoint returns: the transfer payload, plus the
`idempotent: true` marker on a cached replay (absent, i.e. `false`, on a
fresh execution). -/
structure OpResult where
  response : TransferResult
  idempotent : Bool
deriving DecidableEq, Repr

/-- JavaScript `x || d` for an optional string (`undefined` and `""` are
falsy). -/
def jsOrDefault (o : Option String) (d : String) : String :=
  match o with
  | some v => if v = "" then d else v
  | none => d

/-- `topUp(userId, assetCode, amount, idempotencyKey, description, metadata)`:
validate, then inside one transaction check the idempotency cache, locate
the user's and the Treasury wallet for the asset, transfer Treasury → user
with kind `TOPUP`, and store the idempotent response. -/
def topUp (args : OpArgs) (s : DBState) (txnId : String) :
    Except Err OpResult × DBState × List Event :=
  if args.userId = "" then (.error (.Validation "userId is required"), s, [])
  else if args.assetCode = "" then (.error (.Validation "assetCode is required"), s, [])
  else if ¬ (args.amount.den = 1 ∧ 0 < args.amount) then
    (.error (.Validation "amount must be a positive integer"), s, [])
  else
    withTransaction s (fun client =>
      match checkIdempotencyKey client args.idempotencyKey with
      | some cached =>
        (.ok ({ response := cached.response, idempotent := true }, client),
         [Event.idemLookup args.idempotencyKey])
      | none =>
        match findWallet client args.userId args.assetCode with
        | .error e =>
          (.error e,
           [Event.idemLookup args.idempotencyKey,
            Event.walletLookup args.userId args.assetCode])
        | .ok userWallet =>
          match findWallet client TREASURY args.assetCode with
          | .error e =>
            (.error e,
             [Event.idemLookup args.idempotencyKey,
              Event.walletLookup args.userId args.assetCode,
              Event.walletLookup TREASURY args.assetCode])
          | .ok treasuryWallet =>
            match executeTransfer client
                { sourceWalletId := treasuryWallet.id
                  destWalletId := userWallet.id
                  amount := args.amount.num
                  assetTypeId := userWallet.asset_type_id
                  transactionType := "TOPUP"
                  description := jsOrDefault args.description
                    ("Top-up of " ++ toString args.amount.num ++ " " ++ args.assetCode)
                  metadata := "paymentFlow=topup"
                  idempotencyKey := args.idempotencyKey } txnId with
            | .error e =>
              (.error e,
               [Event.idemLookup args.idempotencyKey,
                Event.walletLookup args.userId args.assetCode,
                Event.walletLookup TREASURY args.assetCode,
                Event.locked [treasuryWallet.id, userWallet.id]])
            | .ok (result, s1) =>
              (.ok ({ response := result, idempotent := false },
                    storeIdempotencyKey s1 args.idempotencyKey result),
               [Event.idemLookup args.idempotencyKey,
                Event.walletLookup args.userId args.assetCode,
                Event.walletLookup TREASURY args.assetCode,
                Event.locked [treasuryWallet.id, userWallet.id],
                Event.idemStore args.idempotencyKey]))

/-- `issueBonus(...)`: same flow as `topUp` with kind `BONUS`. -/
def issueBonus (args : OpArgs) (s : DBState) (txnId : String) :
    Except Err OpResult × DBState × List Event :=
  if args.userId = "" then (.error (.Validation "userId is required"), s, [])
  else if args.assetCode = "" then (.error (.Validation "assetCode is required"), s, [])
  else if ¬ (args.amount.den = 1 ∧ 0 < args.amount) then
    (.error (.Validation "amount must be a positive integer"), s, [])
  else
    withTransaction s (fun client =>
      match checkIdempotencyKey client args.idempotencyKey with
      | some cached =>
        (.ok ({ response := cached.response, idempotent := true }, client),
         [Event.idemLookup args.idempotencyKey])
      | none =>
        match findWallet client args.userId args.assetCode with
        | .error e =>
          (.error e,
           [Event.idemLookup args.idempotencyKey,
            Event.walletLookup args.userId args.assetCode])
        | .ok userWallet =>
          match findWallet client TREASURY args.assetCode with
          | .error e =>
            (.error e,
             [Event.idemLookup args.idempotencyKey,
              Event.walletLookup args.userId args.assetCode,
              Event.walletLookup TREASURY args.assetCode])
          | .ok treasuryWallet =>
            match executeTransfer client
                { sourceWalletId := treasuryWallet.id
                  destWalletId := userWallet.id
                  amount := args.amount.num
                  assetTypeId := userWallet.asset_type_id
                  transactionType := "BONUS"
                  description := jsOrDefault args.description
                    ("Bonus of " ++ toString args.amount.num ++ " " ++ args.assetCode)
                  metadata := "paymentFlow=bonus"
                  idempotencyKey := args.idempotencyKey } txnId with
            | .error e =>
              (.error e,
               [Event.idemLookup args.idempotencyKey,
                Event.walletLookup args.userId args.assetCode,
                Event.walletLookup TREASURY args.assetCode,
                Event.locked [treasuryWallet.id, userWallet.id]])
            | .ok (result, s1) =>
              (.ok ({ response := result, idempotent := false },
                    storeIdempotencyKey s1 args.idempotencyKey result),
               [Event.idemLookup args.idempotencyKey,
                Event.walletLookup args.userId args.assetCode,
                Event.walletLookup TREASURY args.assetCode,
                Event.locked [treasuryWallet.id, userWallet.id],
                Event.idemStore args.idempotencyKey]))

/-- `purchase(...)`: user's wallet → Revenue with kind `PURCHASE`. -/
def purchase (args : OpArgs) (s : DBState) (txnId : String) :
    Except Err OpResult × DBState × List Event :=
  if args.userId = "" then (.error (.Validation "userId is required"), s, [])
  else if args.assetCode = "" then (.error (.Validation "assetCode is required"), s, [])
  else if ¬ (args.amount.den = 1 ∧ 0 < args.amount) then
    (.error (.Validation "amount must be a positive integer"), s, [])
  else
    withTransaction s (fun client =>
      match checkIdempotencyKey client args.idempotencyKey with
      | some cached =>
        (.ok ({ response := cached.response, idempotent := true }, client),
         [Event.idemLookup args.idempotencyKey])
      | none =>
        match findWallet client args.userId args.assetCode with
        | .error e =>
          (.error e,
           [Event.idemLookup args.idempotencyKey,
            Event.walletLookup args.userId args.assetCode])
        | .ok userWallet =>
          match findWallet client REVENUE args.assetCode with
          | .error e =>
            (.error e,
             [Event.idemLookup args.idempotencyKey,
              Event.walletLookup args.userId args.assetCode,
              Event.walletLookup REVENUE args.assetCode])
          | .ok revenueWallet =>
            match executeTransfer client
                { sourceWalletId := userWallet.id
                  destWalletId := revenueWallet.id
                  amount := args.amount.num
                  assetTypeId := userWallet.asset_type_id
                  transactionType := "PURCHASE"
                  description := jsOrDefault args.description
                    ("Purchase of " ++ toString args.amount.num ++ " " ++ args.assetCode)
                  metadata := "paymentFlow=purchase"
                  idempotencyKey := args.idempotencyKey } txnId with
            | .error e =>
              (.error e,
               [Event.idemLookup args.idempotencyKey,
                Event.walletLookup args.userId args.assetCode,
                Event.walletLookup REVENUE args.assetCode,
                Event.locked [userWallet.id, revenueWallet.id]])
            | .ok (result, s1) =>
              (.ok ({ response := result, idempotent := false },
                    storeIdempotencyKey s1 args.idempotencyKey result),
               [Event.idemLookup args.idempotencyKey,
                Event.walletLookup args.userId args.assetCode,
                Event.walletLookup REVENUE args.assetCode,
                Event.locked [userWallet.id, revenueWallet.id],
                Event.idemStore args.idempotencyKey]))

/-- Tag for quantifying over the three mutation operations. -/
inductive OpKind
  | topUpOp
  | bonusOp
  | purchaseOp
deriving DecidableEq, Repr

def runOp : OpKind → OpArgs → DBState → String → Except Err OpResult × DBState × List Event
  | .topUpOp => topUp
  | .bonusOp => issueBonus
  | .purchaseOp => purchase

/-! ### Idempotency middleware and the mutation endpoints
(`middleware/idempotency.js`, `routes/wallet.js`) -/

/-- A JavaScript value as the middleware sees the supplied key: a string,
or some non-string truthy value. -/
inductive JSVal
  | str (s : String)
  | nonString
deriving DecidableEq, Repr

def jsTruthy : JSVal → Bool
  | .str s => !(s == "")
  | .nonString => true

/-- `idempotencyMiddleware`: with a truthy supplied key, reject a
non-string or a string longer than 255 characters with a 400
`VALIDATION_ERROR`; otherwise attach the key to the request. -/
def idempotencyMiddleware (rawKey : Option JSVal) : Except Err (Option String) :=
  match rawKey with
  | none => .ok none
  | some v =>
    if jsTruthy v then
      match v with
      | .str k =>
        if 255 < k.length then
          .error (.Validation "Idempotency-Key must be a string with max 255 characters")
        else .ok (some k)
      | .nonString =>
        .error (.Validation "Idempotency-Key must be a string with max 255 characters")
    else .ok none

/-- A mutation endpoint as the router wires it: the idempotency
middleware runs first and short-circuits with its 400 response; otherwise
the service operation runs with the validated key. -/
def transferEndpoint (k : OpKind) (rawKey : Option JSVal) (args : OpArgs)
    (s : DBState) (txnId : String) : Except Err OpResult × DBState × List Event :=
  match idempotencyMiddleware rawKey with
  | .error e => (.error e, s, [])
  | .ok key => runOp k { args with idempotencyKey := key } s txnId

/-! ### `getBalance` -/

structure BalanceRow where
  walletId : String
  assetCode : String
  assetName : String
  balance : Int
deriving DecidableEq, Repr

def balanceRowLe (a b : BalanceRow) : Prop := strLe a.assetCode b.assetCode = true

instance : DecidableRel balanceRowLe :=
  fun a b => inferInstanceAs (Decidable (strLe a.assetCode b.assetCode = true))

/-- The rows of the `getBalance` query before `ORDER BY at.code`:
wallets of the user inner-joined with their asset type, optionally
filtered by asset code. -/
def balanceJoinRows (s : DBState) (userId : String) (assetCode : Option String) :
    List BalanceRow :=
  (s.wallets.filter (fun w => w.user_id == userId)).filterMap (fun w =>
    match s.assetTypes.find? (fun a => a.id == w.asset_type_id) with
    | some a =>
      if (match assetCode with | some c => a.code == c | none => true) then
        some { walletId := w.id, assetCode := a.code, assetName := a.name, balance := w.balance }
      else none
    | none => none)

/-- `getBalance(userId, assetCode)` with `NotFound` when the query
returns no rows. -/
def getBalance (s : DBState) (userId : String) (assetCode : Option String) :
    Except Err (List BalanceRow) :=
  if userId = "" then .error (.Validation "userId is required")
  else
    let rows := List.insertionSort balanceRowLe (balanceJoinRows s userId assetCode)
    if rows.length = 0 then .error (.NotFound "Wallet" userId)
    else .ok rows

/-! ### `getTransactions` and its route -/

structure TxnRow where
  transactionId : String
  txnType : String
  status : String
  entryType : EntryType
  amount : Int
  assetCode : String
  balanceBefore : Int
  balanceAfter : Int
  createdAt : Nat
deriving DecidableEq, Repr

/-- `ORDER BY t.created_at DESC`. -/
def txnRowDesc (a b : TxnRow) : Prop := b.createdAt ≤ a.createdAt

instance : DecidableRel txnRowDesc :=
  fun a b => inferInstanceAs (Decidable (b.createdAt ≤ a.createdAt))

/-- The rows of the `getTransactions` query before ordering and paging:
transactions joined with their asset type and with the ledger entries
whose wallet belongs to the user. -/
def txnJoinRows (s : DBState) (userId : String) (assetCode : Option String) :
    List TxnRow :=
  s.transactions.flatMap (fun t =>
    (s.ledger.filter (fun le => le.transaction_id == t.id)).filterMap (fun le =>
      match s.wallets.find? (fun w => w.id == le.wallet_id),
            s.assetTypes.find? (fun a => a.id == t.asset_type_id) with
      | some w, some a =>
        if w.user_id == userId &&
            (match assetCode with | some c => a.code == c | none => true) then
          some { transactionId := t.id, txnType := t.transaction_type, status := t.status,
                 entryType := le.entry_type, amount := le.amount, assetCode := a.code,
                 balanceBefore := le.balance_before, balanceAfter := le.balance_after,
                 createdAt := t.created_at }
        else none
      | _, _ => none))

/-- `getTransactions(userId, assetCode, { limit, offset })`.  The store
rejects a negative `LIMIT` or `OFFSET` (surfaced as an unclassified
error); otherwise the joined rows are returned newest first with the
requested paging window. -/
def getTransactions (s : DBState) (userId : String) (assetCode : Option String)
    (limit : Int) (offset : Int) : Except Err (List TxnRow) :=
  if userId = "" then .error (.Validation "userId is required")
  else if limit < 0 ∨ offset < 0 then .error .internal
  else
    .ok ((List.insertionSort txnRowDesc (txnJoinRows s userId assetCode)).drop
          offset.toNat |>.take limit.toNat)

/-- The route's `Math.min(parseInt(req.query.limit) || 20, 100)`.  The
argument is the result of `parseInt`: `none` for an absent or non-numeric
parameter (`NaN`). -/
def effLimit (q : Option Int) : Int :=
  min (match q with | none => 20 | some n => if n = 0 then 20 else n) 100

/-- The route's `parseInt(req.query.offset) || 0`. -/
def effOffset (q : Option Int) : Int :=
  match q with
  | none => 0
  | some n => n

/-- `GET /wallets/:userId/transactions`. -/
def getTransactionsRoute (s : DBState) (userId : String) (assetCode : Option String)
    (limitQ offsetQ : Option Int) : Except Err (List TxnRow) :=
  getTransactions s userId assetCode (effLimit limitQ) (effOffset offsetQ)

/-! ### Error mapper (`middleware/errorHandler.js`) -/

/-- What reaches the error middleware: a classified application error,
or a raw store error identified by its PostgreSQL code. -/
inductive ServerErr
  | app (e : Err)
  | pg (code : String)
deriving DecidableEq, Repr

structure ApiResponse where
  status : Nat
  success : Bool
  errorCode : Option String
  payload : Option TransferResult
  note : Option String
deriving DecidableEq, Repr

def errStatus : Err → Nat
  | .Validation _ => 400
  | .NotFound _ _ => 404
  | .InsufficientBalance _ _ _ => 422
  | .internal => 500

def errCode : Err → String
  | .Validation _ => "VALIDATION_ERROR"
  | .NotFound _ _ => "NOT_FOUND"
  | .InsufficientBalance _ _ _ => "INSUFFICIENT_BALANCE"
  | .internal => "INTERNAL_ERROR"

def duplicateResponse : ApiResponse :=
  { status := 409, success := false, errorCode := some "DUPLICATE_TRANSACTION",
    payload := none, note := none }

/-- `errorHandler(err, req, res)`.  For a `23505` uniqueness violation
with a truthy idempotency key on the request, the cache is re-read with
that key (without the expiry filter, exactly as the source query) and a
stored response is replayed with status 200; otherwise
`DUPLICATE_TRANSACTION` is surfaced. -/
def errorHandler (s : DBState) (err : ServerErr) (reqKey : Option String) : ApiResponse :=
  match err with
  | .app e =>
    { status := errStatus e, success := false, errorCode := some (errCode e),
      payload := none, note := none }
  | .pg code =>
    if code = "23505" then
      match reqKey with
      | some k =>
        if k = "" then duplicateResponse
        else
          match s.idem.find? (fun q => q.key == k) with
          | some q =>
            { status := 200, success := true, errorCode := none,
              payload := some q.response,
              note := some "Idempotent replay - original response returned" }
          | none => duplicateResponse
      | none => duplicateResponse
    else if code = "23514" then
      { status := 422, success := false, errorCode := some "CONSTRAINT_VIOLATION",
        payload := none, note := none }
    else if code = "40P01" then
      { status := 503, success := false, errorCode := some "DEADLOCK_DETECTED",
        payload := none, note := none }
    else if code = "40001" then
      { status := 503, success := false, errorCode := some "SERIALIZATION_FAILURE",
        payload := none, note := none }
    else
      { status := 500, success := false, errorCode := some "INTERNAL_ERROR",
        payload := none, note := none }

/-- Per-asset total used by the conservation claim. -/
def assetTotal (s : DBState) (a : Nat) : Int :=
  ((s.wallets.filter (fun w => w.asset_type_id == a)).map (fun w => w.balance)).sum

/-! ### Concrete fixtures (seed-style data used by the witnesses) -/

def atGold : AssetType := { id := 1, code := "GOLD_COINS", name := "Gold Coins" }

def wAlice : Wallet :=
  { id := "w1", user_id := "alice", balance := 100, allow_negative := false,
    version := 0, asset_type_id := 1 }

def wTreas : Wallet :=
  { id := "w2", user_id := TREASURY, balance := -1000, allow_negative := true,
    version := 0, asset_type_id := 1 }

def wRev : Wallet :=
  { id := "w3", user_id := REVENUE, balance := 0, allow_negative := true,
    version := 0, asset_type_id := 1 }

def sEx : DBState :=
  { assetTypes := [atGold], wallets := [wAlice, wTreas, wRev],
    transactions := [], ledger := [], idem := [] }

def respEx : TransferResult :=
  { transactionId := "t0", transactionType := "TOPUP", sourceWalletId := "w2",
    sourceBalanceBefore := -1000, sourceBalanceAfter := -1500, destWalletId := "w1",
    destBalanceBefore := 100, destBalanceAfter := 600, amount := 500,
    description := "buy" }

def recEx : IdemRecord :=
  { key := "k1", response := respEx, status_code := 200, expired := false }

def sExCached : DBState :=
  { sEx with idem := [recEx] }

def argsEx : OpArgs :=
  { userId := "alice", assetCode := "GOLD_COINS", amount := 500,
    idempotencyKey := none, description := some "buy" }

def pEx : TransferParams :=
  { sourceWalletId := "w2", destWalletId := "w1", amount := 500, assetTypeId := 1,
    transactionType := "TOPUP", description := "buy", metadata := "m",
    idempotencyKey := none }

def argsExK : OpArgs :=
  { argsEx with idempotencyKey := some "k1" }

/-- Alice spending more than her balance (source `w1`, destination the
Revenue wallet `w3`). -/
def pPoor : TransferParams :=
  { sourceWalletId := "w1", destWalletId := "w3", amount := 500, assetTypeId := 1,
    transactionType := "PURCHASE", description := "buy", metadata := "m",
    idempotencyKey := none }

/-- `amount = 0` (boundary violation). -/
def argsBad : OpArgs := { argsEx with amount := 0 }

/-- A non-integer amount `7/2`. -/
def argsHalf : OpArgs := { argsEx with amount := ⟨7, 2, by decide, by decide⟩ }

/-- A 256-character idempotency key. -/
def key256 : String := String.mk (List.replicate 256 'a')

/-- A 255-character idempotency key. -/
def key255 : String := String.mk (List.replicate 255 'a')

/-- The concrete store state after `topUp argsEx sEx "t1"`. -/
def sEx2 : DBState :=
  { assetTypes := [atGold]
    wallets :=
      [{ wAlice with balance := 600, version := 1 },
       { wTreas with balance := -1500, version := 1 },
       wRev]
    transactions :=
      [{ id := "t1", idempotency_key := none, transaction_type := "TOPUP",
         status := "COMPLETED", source_wallet_id := "w2", dest_wallet_id := "w1",
         asset_type_id := 1, amount := 500, description := "buy",
         metadata := "paymentFlow=topup", created_at := 0 }]
    ledger :=
      [{ transaction_id := "t1", wallet_id := "w2", entry_type := .DEBIT,
         amount := 500, balance_before := -1000, balance_after := -1500 },
       { transaction_id := "t1", wallet_id := "w1", entry_type := .CREDIT,
         amount := 500, balance_before := 100, balance_after := 600 }]
    idem := [] }

/-- The concrete result of `executeTransfer sEx pEx "t1"`. -/
def rEx1 : TransferResult :=
  { transactionId := "t1", transactionType := "TOPUP", sourceWalletId := "w2",
    sourceBalanceBefore := -1000, sourceBalanceAfter := -1500, destWalletId := "w1",
    destBalanceBefore := 100, destBalanceAfter := 600, amount := 500,
    description := "buy" }

/-- The concrete store state after `executeTransfer sEx pEx "t1"`. -/
def sEx1 : DBState :=
  { assetTypes := [atGold]
    wallets :=
      [{ wAlice with balance := 600, version := 1 },
       { wTreas with balance := -1500, version := 1 },
       wRev]
    transactions :=
      [{ id := "t1", idempotency_key := none, transaction_type := "TOPUP",
         status := "COMPLETED", source_wallet_id := "w2", dest_wallet_id := "w1",
         asset_type_id := 1, amount := 500, description := "buy", metadata := "m",
         created_at := 0 }]
    ledger :=
      [{ transaction_id := "t1", wallet_id := "w2", entry_type := .DEBIT,
         amount := 500, balance_before := -1000, balance_after := -1500 },
       { transaction_id := "t1", wallet_id := "w1", entry_type := .CREDIT,
         amount := 500, balance_before := 100, balance_after := 600 }]
    idem := [] }

/-! ### Order lemmas for the byte order and the sort relations -/

theorem charListLe_refl (a : List Char) : charListLe a a = true := by
  induction a with
  | nil => rfl
  | cons x xs ih => simp [charListLe, ih]

theorem charListLe_total (a : List Char) : ∀ b, charListLe a b = true ∨ charListLe b a = true := by
  induction a with
  | nil => intro b; left; rfl
  | cons x xs ih =>
    intro b
    cases b with
    | nil => right; rfl
    | cons y ys =>
      by_cases hxy : x.toNat < y.toNat
      · left; simp [charListLe, hxy]
      · by_cases hyx : y.toNat < x.toNat
        · right; simp [charListLe, hyx]
        · rcases ih ys with h | h
          · left; simp [charListLe, hxy, hyx, h]
          · right; simp [charListLe, hxy, hyx, h]

theorem charListLe_trans (a : List Char) :
    ∀ b c, charListLe a b = true → charListLe b c = true → charListLe a c = true := by
  induction a with
  | nil => intro b c _ _; rfl
  | cons x xs ih =>
    intro b c h1 h2
    cases b with
    | nil => simp [charListLe] at h1
    | cons y ys =>
      cases c with
      | nil => simp [charListLe] at h2
      | cons z zs =>
        have H1 : x.toNat < y.toNat ∨ (x.toNat = y.toNat ∧ charListLe xs ys = true) := by
          by_cases hxy : x.toNat < y.toNat
          · exact .inl hxy
          · by_cases hyx : y.toNat < x.toNat
            · simp [charListLe, hxy, hyx] at h1
            · exact .inr ⟨by omega, by simpa [charListLe, hxy, hyx] using h1⟩
        have H2 : y.toNat < z.toNat ∨ (y.toNat = z.toNat ∧ charListLe ys zs = true) := by
          by_cases hyz : y.toNat < z.toNat
          · exact .inl hyz
          · by_cases hzy : z.toNat < y.toNat
            · simp [charListLe, hyz, hzy] at h2
            · exact .inr ⟨by omega, by simpa [charListLe, hyz, hzy] using h2⟩
        rcases H1 with h1' | ⟨e1, r1⟩
        · rcases H2 with h2' | ⟨e2, r2⟩
          · simp [charListLe, show x.toNat < z.toNat by omega]
          · simp [charListLe, show x.toNat < z.toNat by omega]
        · rcases H2 with h2' | ⟨e2, r2⟩
          · simp [charListLe, show x.toNat < z.toNat by omega]
          · simp [charListLe, show ¬ x.toNat < z.toNat by omega,
              show ¬ z.toNat < x.toNat by omega]
            exact ih ys zs r1 r2

instance : IsTotal String strLeRel :=
  ⟨fun a b => charListLe_total a.data b.data⟩

instance : IsTrans String strLeRel :=
  ⟨fun a b c h1 h2 => charListLe_trans a.data b.data c.data h1 h2⟩

instance : IsTotal Wallet walletLe :=
  ⟨fun a b => charListLe_total a.id.data b.id.data⟩

instance : IsTrans Wallet walletLe :=
  ⟨fun a b c h1 h2 => charListLe_trans a.id.data b.id.data c.id.data h1 h2⟩

instance : IsTotal BalanceRow balanceRowLe :=
  ⟨fun a b => charListLe_total a.assetCode.data b.assetCode.data⟩

instance : IsTrans BalanceRow balanceRowLe :=
  ⟨fun a b c h1 h2 => charListLe_trans a.assetCode.data b.assetCode.data c.assetCode.data h1 h2⟩

instance : IsTotal TxnRow txnRowDesc :=
  ⟨fun a b => le_total b.createdAt a.createdAt⟩

instance : IsTrans TxnRow txnRowDesc :=
  ⟨fun a b c h1 h2 => le_trans h2 h1⟩

/-! ### Inversion lemmas on the embedded operations -/

theorem withTransaction_error {α : Type} {s : DBState}
    {fn : DBState → Except Err (α × DBState) × List Event}
    {e : Err} {s1 : DBState} {tr : List Event}
    (h : withTransaction s fn = (.error e, s1, tr)) : s1 = s := by
  unfold withTransaction at h
  split at h
  · simp only [Prod.mk.injEq] at h
    exact absurd h.1 (by simp)
  · simp only [Prod.mk.injEq] at h
    exact h.2.1.symm

theorem withTransaction_error_fn {α : Type} {s : DBState}
    {fn : DBState → Except Err (α × DBState) × List Event}
    {e : Err} {s1 : DBState} {tr : List Event}
    (h : withTransaction s fn = (.error e, s1, tr)) :
    ∃ ev, fn s = (.error e, ev) := by
  unfold withTransaction at h
  split at h
  · simp only [Prod.mk.injEq] at h
    exact absurd h.1 (by simp)
  · next e' ev heq =>
    simp only [Prod.mk.injEq] at h
    obtain ⟨h1, -, -⟩ := h
    obtain rfl : e' = e := by simpa using h1
    exact ⟨ev, heq⟩

theorem findWallet_error_shape {s : DBState} {userId assetCode : String} {e : Err}
    (h : findWallet s userId assetCode = .error e) :
    ∃ ident, e = .NotFound "Wallet" ident := by
  unfold findWallet at h
  split at h
  · simp at h
  · exact ⟨_, by simpa using h.symm⟩

theorem lockWalletsInOrder_error_shape {s : DBState} {walletIds : List String} {e : Err}
    (h : lockWalletsInOrder s walletIds = .error e) :
    ∃ ident, e = .NotFound "Wallet" ident := by
  simp only [lockWalletsInOrder] at h
  split at h
  · exact ⟨_, by simpa using h.symm⟩
  · simp at h

theorem lockWalletsInOrder_ok_inv {s : DBState} {walletIds : List String} {rows : List Wallet}
    (h : lockWalletsInOrder s walletIds = .ok rows) :
    rows = List.insertionSort walletLe
      (s.wallets.filter (fun w => (List.insertionSort strLeRel walletIds).contains w.id)) ∧
    rows.length = walletIds.length := by
  simp only [lockWalletsInOrder] at h
  split at h
  · simp at h
  · next hlen =>
    injection h with h1
    refine ⟨h1.symm, ?_⟩
    rw [← h1]
    exact not_ne_iff.mp hlen

theorem lockWalletsInOrder_mem {s : DBState} {walletIds : List String} {rows : List Wallet}
    (h : lockWalletsInOrder s walletIds = .ok rows) (w : Wallet) :
    w ∈ rows ↔ (w ∈ s.wallets ∧ w.id ∈ walletIds) := by
  obtain ⟨hrows, -⟩ := lockWalletsInOrder_ok_inv h
  subst hrows
  rw [(List.perm_insertionSort walletLe _).mem_iff, List.mem_filter]
  constructor
  · rintro ⟨hw, hc⟩
    refine ⟨hw, ?_⟩
    have hm : w.id ∈ List.insertionSort strLeRel walletIds := by simpa using hc
    exact (List.perm_insertionSort strLeRel walletIds).mem_iff.mp hm
  · rintro ⟨hw, hid⟩
    refine ⟨hw, ?_⟩
    have hm : w.id ∈ List.insertionSort strLeRel walletIds :=
      (List.perm_insertionSort strLeRel walletIds).mem_iff.mpr hid
    simpa using hm

theorem executeTransfer_ok_inv {s : DBState} {p : TransferParams} {txnId : String}
    {r : TransferResult} {s' : DBState}
    (h : executeTransfer s p txnId = .ok (r, s')) :
    ∃ rows sw dw,
      lockWalletsInOrder s [p.sourceWalletId, p.destWalletId] = .ok rows ∧
      walletMapGet rows p.sourceWalletId = some sw ∧
      walletMapGet rows p.destWalletId = some dw ∧
      ¬ (sw.allow_negative = false ∧ sw.balance < p.amount) ∧
      r = { transactionId := txnId, transactionType := p.transactionType,
            sourceWalletId := p.sourceWalletId, sourceBalanceBefore := sw.balance,
            sourceBalanceAfter := sw.balance - p.amount, destWalletId := p.destWalletId,
            destBalanceBefore := dw.balance, destBalanceAfter := dw.balance + p.amount,
            amount := p.amount, description := p.description } ∧
      s'.wallets = (s.wallets.map (debitUpdate p sw)).map (creditUpdate p dw) ∧
      s'.transactions = s.transactions ++
        [{ id := txnId, idempotency_key := p.idempotencyKey,
           transaction_type := p.transactionType, status := "COMPLETED",
           source_wallet_id := p.sourceWalletId, dest_wallet_id := p.destWalletId,
           asset_type_id := p.assetTypeId, amount := p.amount,
           description := p.description, metadata := p.metadata,
           created_at := s.transactions.length }] ∧
      s'.ledger = s.ledger ++
        [{ transaction_id := txnId, wallet_id := p.sourceWalletId, entry_type := .DEBIT,
           amount := p.amount, balance_before := sw.balance,
           balance_after := sw.balance - p.amount },
         { transaction_id := txnId, wallet_id := p.destWalletId, entry_type := .CREDIT,
           amount := p.amount, balance_before := dw.balance,
           balance_after := dw.balance + p.amount }] ∧
      s'.assetTypes = s.assetTypes ∧ s'.idem = s.idem := by
  unfold executeTransfer at h
  split at h
  · simp at h
  · next rows heqlock =>
    split at h
    · simp at h
    · next sw heqsw =>
      split at h
      · simp at h
      · next hins =>
        split at h
        · simp at h
        · next dw heqdw =>
          simp only [Except.ok.injEq, Prod.mk.injEq] at h
          obtain ⟨hr, hs'⟩ := h
          refine ⟨rows, sw, dw, heqlock, heqsw, heqdw, hins, hr.symm, ?_, ?_, ?_, ?_, ?_⟩ <;>
            rw [← hs']

theorem executeTransfer_error_shape {s : DBState} {p : TransferParams} {txnId : String}
    {e : Err} (h : executeTransfer s p txnId = .error e) :
    (∃ ident, e = .NotFound "Wallet" ident) ∨ e = .internal ∨
    (∃ wid m av, e = .InsufficientBalance wid m av) := by
  unfold executeTransfer at h
  split at h
  · next heq =>
    obtain rfl : _ = e := by simpa using h
    exact .inl (lockWalletsInOrder_error_shape heq)
  · split at h
    · exact .inr (.inl (by simpa using h.symm))
    · split at h
      · exact .inr (.inr ⟨_, _, _, by simpa using h.symm⟩)
      · split at h
        · exact .inr (.inl (by simpa using h.symm))
        · simp at h

theorem storeIdempotencyKey_keeps {s : DBState} {key : Option String}
    {resp : TransferResult} :
    (storeIdempotencyKey s key resp).wallets = s.wallets ∧
    (storeIdempotencyKey s key resp).transactions = s.transactions ∧
    (storeIdempotencyKey s key resp).ledger = s.ledger ∧
    (storeIdempotencyKey s key resp).assetTypes = s.assetTypes := by
  unfold storeIdempotencyKey
  split
  · exact ⟨rfl, rfl, rfl, rfl⟩
  · split
    · exact ⟨rfl, rfl, rfl, rfl⟩
    · split
      · exact ⟨rfl, rfl, rfl, rfl⟩
      · exact ⟨rfl, rfl, rfl, rfl⟩

theorem sum_map_two_indicator (l : List String) (src dst : String) (x y : Int)
    (hne : src ≠ dst) :
    (l.map (fun i => if i = src then x else if i = dst then y else 0)).sum =
      (l.count src : Int) * x + (l.count dst : Int) * y := by
  induction l with
  | nil => simp
  | cons a l ih =>
    simp only [List.map_cons, List.sum_cons, ih, List.count_cons]
    by_cases h1 : a = src
    · have e1 : (a == src) = true := by simp [h1]
      have e2 : (a == dst) = false := by
        subst h1; simpa using hne
      simp only [if_pos h1, e1, e2, if_true, if_false]
      push_cast
      ring
    · have e1 : (a == src) = false := by simpa using h1
      by_cases h2 : a = dst
      · have e2 : (a == dst) = true := by simp [h2]
        simp only [if_neg h1, if_pos h2, e1, e2, if_true, if_false]
        push_cast
        ring
      · have e2 : (a == dst) = false := by simpa using h2
        simp only [if_neg h1, if_neg h2, e1, e2, if_false]
        push_cast
        ring

/-! ### Claim theorems -/

/-- C1: for every successful `executeTransfer` of amount `a`, the Debit
ledger entry written for the source wallet and the Credit entry written
for the destination wallet both carry amount `a`, equal to the
transaction row's amount; the source and destination balance sum is
conserved, and the total balance over the wallets of the shared asset is
unchanged. -/
theorem c1_double_entry_conservation
    (s : DBState) (p : TransferParams) (txnId : String)
    (r : TransferResult) (s' : DBState) (srcW dstW : Wallet)
    (hnd : (s.wallets.map (fun w => w.id)).Nodup)
    (hsmem : srcW ∈ s.wallets) (hsid : srcW.id = p.sourceWalletId)
    (hdmem : dstW ∈ s.wallets) (hdid : dstW.id = p.destWalletId)
    (hasset : srcW.asset_type_id = dstW.asset_type_id)
    (h : executeTransfer s p txnId = .ok (r, s')) :
    (∃ t, s'.transactions = s.transactions ++ [t] ∧ t.amount = p.amount) ∧
    (∃ d c, s'.ledger = s.ledger ++ [d, c] ∧
       d.entry_type = .DEBIT ∧ d.wallet_id = p.sourceWalletId ∧ d.amount = p.amount ∧
       c.entry_type = .CREDIT ∧ c.wallet_id = p.destWalletId ∧ c.amount = p.amount) ∧
    r.amount = p.amount ∧
    r.sourceBalanceAfter + r.destBalanceAfter = r.sourceBalanceBefore + r.destBalanceBefore ∧
    assetTotal s' srcW.asset_type_id = assetTotal s srcW.asset_type_id := by
  obtain ⟨rows, sw, dw, hlock, hgs, hgd, hins, hr, hwal, ht, hled, hat, hidm⟩ :=
    executeTransfer_ok_inv h
  have hswmem_rows : sw ∈ rows := List.mem_of_find?_eq_some hgs
  have hdwmem_rows : dw ∈ rows := List.mem_of_find?_eq_some hgd
  have hswid : sw.id = p.sourceWalletId := by
    have := List.find?_some hgs
    simpa using this
  have hdwid : dw.id = p.destWalletId := by
    have := List.find?_some hgd
    simpa using this
  have hswmem : sw ∈ s.wallets := ((lockWalletsInOrder_mem hlock sw).mp hswmem_rows).1
  have hdwmem : dw ∈ s.wallets := ((lockWalletsInOrder_mem hlock dw).mp hdwmem_rows).1
  have hsw_eq : srcW = sw :=
    List.inj_on_of_nodup_map hnd hsmem hswmem (by rw [hsid, hswid])
  have hdw_eq : dstW = dw :=
    List.inj_on_of_nodup_map hnd hdmem hdwmem (by rw [hdid, hdwid])
  subst hsw_eq
  subst hdw_eq
  have hne : p.sourceWalletId ≠ p.destWalletId := by
    intro hcontra
    obtain ⟨hrows_eq, hlen⟩ := lockWalletsInOrder_ok_inv hlock
    have hlen2 : rows.length = 2 := by simpa using hlen
    obtain ⟨w1, w2, hw12⟩ := List.length_eq_two.mp hlen2
    have hfsub : (s.wallets.filter (fun w =>
        (List.insertionSort strLeRel [p.sourceWalletId, p.destWalletId]).contains w.id)).Sublist
        s.wallets := List.filter_sublist _
    have hnd_f : ((s.wallets.filter (fun w =>
        (List.insertionSort strLeRel [p.sourceWalletId, p.destWalletId]).contains w.id)).map
        (fun w => w.id)).Nodup :=
      List.Nodup.sublist (hfsub.map _) hnd
    have hperm : rows.Perm (s.wallets.filter (fun w =>
        (List.insertionSort strLeRel [p.sourceWalletId, p.destWalletId]).contains w.id)) := by
      rw [hrows_eq]
      exact List.perm_insertionSort _ _
    have hnd_rows : (rows.map (fun w => w.id)).Nodup :=
      ((hperm.map (fun w => w.id)).nodup_iff).mpr hnd_f
    have hmem1 : w1 ∈ rows := by rw [hw12]; simp
    have hmem2 : w2 ∈ rows := by rw [hw12]; simp
    have h1 := ((lockWalletsInOrder_mem hlock w1).mp hmem1).2
    have h2 := ((lockWalletsInOrder_mem hlock w2).mp hmem2).2
    rw [hw12] at hnd_rows
    simp only [List.map_cons, List.map_nil, List.nodup_cons, List.mem_singleton] at hnd_rows
    have e1 : w1.id = p.sourceWalletId := by
      rcases (by simpa using h1 : w1.id = p.sourceWalletId ∨ w1.id = p.destWalletId) with hh | hh
      · exact hh
      · rw [hh, hcontra]
    have e2 : w2.id = p.sourceWalletId := by
      rcases (by simpa using h2 : w2.id = p.sourceWalletId ∨ w2.id = p.destWalletId) with hh | hh
      · exact hh
      · rw [hh, hcontra]
    exact hnd_rows.1 (e1.trans e2.symm)
  refine ⟨⟨_, ht, rfl⟩, ⟨_, _, hled, rfl, rfl, rfl, rfl, rfl, rfl⟩, by rw [hr], by rw [hr]; ring, ?_⟩
  -- conservation of the per-asset total
  have hne' : p.destWalletId ≠ p.sourceWalletId := fun hh => hne hh.symm
  have hcomp : ∀ w, creditUpdate p dstW (debitUpdate p srcW w) =
      (fun w => if w.id = p.sourceWalletId then
          { w with balance := srcW.balance - p.amount, version := w.version + 1 }
        else if w.id = p.destWalletId then
          { w with balance := dstW.balance + p.amount, version := w.version + 1 }
        else w) w := by
    intro w
    by_cases h1 : w.id = p.sourceWalletId
    · simp [debitUpdate, creditUpdate, h1, hne]
    · by_cases h2 : w.id = p.destWalletId
      · simp [debitUpdate, creditUpdate, h1, h2, hne']
      · simp [debitUpdate, creditUpdate, h1, h2]
  have hGwallets : s'.wallets = s.wallets.map
      (fun w => if w.id = p.sourceWalletId then
          { w with balance := srcW.balance - p.amount, version := w.version + 1 }
        else if w.id = p.destWalletId then
          { w with balance := dstW.balance + p.amount, version := w.version + 1 }
        else w) := by
    rw [hwal, List.map_map]
    exact List.map_congr_left (fun w _ => hcomp w)
  unfold assetTotal
  rw [hGwallets, List.filter_map]
  have hfc : List.filter ((fun w => w.asset_type_id == srcW.asset_type_id) ∘ (fun w =>
        if w.id = p.sourceWalletId then
          { w with balance := srcW.balance - p.amount, version := w.version + 1 }
        else if w.id = p.destWalletId then
          { w with balance := dstW.balance + p.amount, version := w.version + 1 }
        else w)) s.wallets =
      List.filter (fun w => w.asset_type_id == srcW.asset_type_id) s.wallets := by
    apply List.filter_congr
    intro w _
    simp only [Function.comp]
    split_ifs <;> rfl
  rw [hfc, List.map_map]
  have hpt : ∀ w ∈ s.wallets.filter (fun w => w.asset_type_id == srcW.asset_type_id),
      ((fun w => w.balance) ∘ (fun w =>
        if w.id = p.sourceWalletId then
          { w with balance := srcW.balance - p.amount, version := w.version + 1 }
        else if w.id = p.destWalletId then
          { w with balance := dstW.balance + p.amount, version := w.version + 1 }
        else w)) w =
      w.balance + (if w.id = p.sourceWalletId then -p.amount
                   else if w.id = p.destWalletId then p.amount else 0) := by
    intro w hwmem
    have hwmem' : w ∈ s.wallets := (List.mem_filter.mp hwmem).1
    by_cases h1 : w.id = p.sourceWalletId
    · have hwsw : w = srcW :=
        List.inj_on_of_nodup_map hnd hwmem' hswmem (by rw [h1, hswid])
      rw [hwsw]
      simp [Function.comp, hswid, sub_eq_add_neg]
    · by_cases h2 : w.id = p.destWalletId
      · have hwdw : w = dstW :=
          List.inj_on_of_nodup_map hnd hwmem' hdwmem (by rw [h2, hdwid])
        rw [hwdw]
        simp [Function.comp, hdwid, hne']
      · simp [Function.comp, h1, h2]
  rw [List.map_congr_left hpt, List.sum_map_add]
  have hmap_ids : (s.wallets.filter (fun w => w.asset_type_id == srcW.asset_type_id)).map
        (fun w => if w.id = p.sourceWalletId then -p.amount
                  else if w.id = p.destWalletId then p.amount else 0) =
      ((s.wallets.filter (fun w => w.asset_type_id == srcW.asset_type_id)).map
        (fun w => w.id)).map
        (fun i => if i = p.sourceWalletId then -p.amount
                  else if i = p.destWalletId then p.amount else 0) := by
    rw [List.map_map]
    rfl
  have hnodup_ids : (((s.wallets.filter
      (fun w => w.asset_type_id == srcW.asset_type_id)).map (fun w => w.id))).Nodup :=
    List.Nodup.sublist ((List.filter_sublist _).map _) hnd
  have hswfl : srcW ∈ s.wallets.filter (fun w => w.asset_type_id == srcW.asset_type_id) :=
    List.mem_filter.mpr ⟨hswmem, by simp⟩
  have hdwfl : dstW ∈ s.wallets.filter (fun w => w.asset_type_id == srcW.asset_type_id) :=
    List.mem_filter.mpr ⟨hdwmem, by simp [← hasset]⟩
  have hsrc_mem : p.sourceWalletId ∈ (s.wallets.filter
      (fun w => w.asset_type_id == srcW.asset_type_id)).map (fun w => w.id) :=
    hswid ▸ List.mem_map_of_mem _ hswfl
  have hdst_mem : p.destWalletId ∈ (s.wallets.filter
      (fun w => w.asset_type_id == srcW.asset_type_id)).map (fun w => w.id) :=
    hdwid ▸ List.mem_map_of_mem _ hdwfl
  rw [hmap_ids, sum_map_two_indicator _ _ _ _ _ hne,
    List.count_eq_one_of_mem hnodup_ids hsrc_mem,
    List.count_eq_one_of_mem hnodup_ids hdst_mem]
  push_cast
  ring

theorem c1_witness :
    ((sEx.wallets.map (fun w => w.id)).Nodup ∧
     wTreas ∈ sEx.wallets ∧ wTreas.id = pEx.sourceWalletId ∧
     wAlice ∈ sEx.wallets ∧ wAlice.id = pEx.destWalletId ∧
     wTreas.asset_type_id = wAlice.asset_type_id ∧
     executeTransfer sEx pEx "t1" = .ok (rEx1, sEx1)) ∧
    ((∃ t, sEx1.transactions = sEx.transactions ++ [t] ∧ t.amount = pEx.amount) ∧
     (∃ d c, sEx1.ledger = sEx.ledger ++ [d, c] ∧
        d.entry_type = .DEBIT ∧ d.wallet_id = pEx.sourceWalletId ∧ d.amount = pEx.amount ∧
        c.entry_type = .CREDIT ∧ c.wallet_id = pEx.destWalletId ∧ c.amount = pEx.amount) ∧
     rEx1.amount = pEx.amount ∧
     rEx1.sourceBalanceAfter + rEx1.destBalanceAfter =
       rEx1.sourceBalanceBefore + rEx1.destBalanceBefore ∧
     assetTotal sEx1 wTreas.asset_type_id = assetTotal sEx wTreas.asset_type_id) :=
  ⟨⟨by decide, by decide, by decide, by decide, by decide, by decide, by rfl⟩,
   c1_double_entry_conservation sEx pEx "t1" rEx1 sEx1 wTreas wAlice
     (by decide) (by decide) (by decide) (by decide) (by decide) (by decide) (by rfl)⟩

/-- C2: when the in-transaction idempotency lookup finds a non-expired
record for the supplied key, each of `topUp`, `issueBonus` and `purchase`
returns the cached response tagged `idempotent = true`, leaves the store
untouched, and performs no wallet lookup, no lock acquisition and no
transfer: the trace is exactly begin, cache lookup, commit. -/
theorem c2_idempotent_replay
    (k : OpKind) (args : OpArgs) (s : DBState) (txnId : String) (cached : IdemRecord)
    (h1 : args.userId ≠ "") (h2 : args.assetCode ≠ "")
    (h3 : args.amount.den = 1) (h4 : 0 < args.amount)
    (hc : checkIdempotencyKey s args.idempotencyKey = some cached) :
    runOp k args s txnId =
      (.ok { response := cached.response, idempotent := true }, s,
       [Event.beginTx, Event.idemLookup args.idempotencyKey, Event.commitTx]) := by
  cases k
  all_goals
    simp only [runOp, topUp, issueBonus, purchase]
    rw [if_neg h1, if_neg h2, if_neg (not_not_intro ⟨h3, h4⟩)]
    simp only [withTransaction, hc]
    rfl

/-- Witness for C2: a replay of the key `k1` against the cached fixture
store. -/
theorem c2_witness :
    (argsExK.userId ≠ "" ∧ argsExK.assetCode ≠ "" ∧
     argsExK.amount.den = 1 ∧ 0 < argsExK.amount ∧
     checkIdempotencyKey sExCached argsExK.idempotencyKey = some recEx) ∧
    runOp .topUpOp argsExK sExCached "t1" =
      (.ok { response := recEx.response, idempotent := true }, sExCached,
       [Event.beginTx, Event.idemLookup argsExK.idempotencyKey, Event.commitTx]) :=
  ⟨⟨by decide, by decide, by decide, by decide, by decide⟩,
   c2_idempotent_replay .topUpOp argsExK sExCached "t1" recEx
     (by decide) (by decide) (by decide) (by decide) (by decide)⟩

/-- C4: a transfer whose source wallet has `allow_negative = false` and a
balance below the requested amount fails with `InsufficientBalance`
carrying the source wallet id, the requested amount and the available
balance; and every failed operation leaves the store exactly as it was
(the transaction rolls back, so wallets, transactions and ledger are
unchanged). -/
theorem c4_insufficient_balance_rollback :
    (∀ (s : DBState) (p : TransferParams) (txnId : String) (rows : List Wallet) (sw : Wallet),
       lockWalletsInOrder s [p.sourceWalletId, p.destWalletId] = .ok rows →
       walletMapGet rows p.sourceWalletId = some sw →
       sw.allow_negative = false → sw.balance < p.amount →
       executeTransfer s p txnId =
         .error (.InsufficientBalance p.sourceWalletId p.amount sw.balance)) ∧
    (∀ (k : OpKind) (args : OpArgs) (s : DBState) (txnId : String) (e : Err)
       (s' : DBState) (tr : List Event),
       runOp k args s txnId = (.error e, s', tr) → s' = s) := by
  constructor
  · intro s p txnId rows sw hlock hsw hneg hlt
    simp only [executeTransfer, hlock, hsw]
    rw [if_pos ⟨hneg, hlt⟩]
  · intro k args s txnId e s' tr h
    cases k
    all_goals
      simp only [runOp, topUp, issueBonus, purchase] at h
      split at h
      · exact (congrArg (fun q => q.2.1) h).symm
      · split at h
        · exact (congrArg (fun q => q.2.1) h).symm
        · split at h
          · exact (congrArg (fun q => q.2.1) h).symm
          · exact withTransaction_error h

/-- Witness for C4: Alice (balance 100, floor enforced) purchasing 500,
both directly through the ledger writer and through `purchase`. -/
theorem c4_witness :
    (lockWalletsInOrder sEx [pPoor.sourceWalletId, pPoor.destWalletId] =
       .ok [wAlice, wRev] ∧
     walletMapGet [wAlice, wRev] pPoor.sourceWalletId = some wAlice ∧
     wAlice.allow_negative = false ∧ wAlice.balance < pPoor.amount ∧
     executeTransfer sEx pPoor "t1" =
       .error (.InsufficientBalance pPoor.sourceWalletId pPoor.amount wAlice.balance)) ∧
    (runOp .purchaseOp argsEx sEx "t1" =
       (.error (.InsufficientBalance "w1" 500 100), sEx,
        [Event.beginTx, Event.idemLookup none,
         Event.walletLookup "alice" "GOLD_COINS",
         Event.walletLookup REVENUE "GOLD_COINS",
         Event.locked ["w1", "w3"], Event.rollbackTx]) ∧
     sEx = sEx) :=
  ⟨⟨by rfl, by decide, by decide, by decide,
    c4_insufficient_balance_rollback.1 sEx pPoor "t1" [wAlice, wRev] wAlice
      (by rfl) (by decide) (by decide) (by decide)⟩,
   ⟨by rfl,
    c4_insufficient_balance_rollback.2 .purchaseOp argsEx sEx "t1"
      (.InsufficientBalance "w1" 500 100) sEx
      [Event.beginTx, Event.idemLookup none,
       Event.walletLookup "alice" "GOLD_COINS",
       Event.walletLookup REVENUE "GOLD_COINS",
       Event.locked ["w1", "w3"], Event.rollbackTx] (by rfl)⟩⟩

/-- C3: on a `23505` uniqueness violation with a truthy idempotency key
available on the request, the error mapper re-reads the idempotency
cache with that key; a stored record is replayed as a 200 success
carrying the cached response, and only an absent record surfaces
`DUPLICATE_TRANSACTION`. -/
theorem c3_duplicate_key_recovery (s : DBState) (k : String) (q : IdemRecord)
    (hk : k ≠ "") :
    (s.idem.find? (fun q2 => q2.key == k) = some q →
       errorHandler s (.pg "23505") (some k) =
         { status := 200, success := true, errorCode := none,
           payload := some q.response,
           note := some "Idempotent replay - original response returned" }) ∧
    (s.idem.find? (fun q2 => q2.key == k) = none →
       errorHandler s (.pg "23505") (some k) = duplicateResponse) := by
  constructor <;> intro hfind <;> simp [errorHandler, hk, hfind]

/-- Witness for C3: replay of key `k1` from the cached fixture store, and
the duplicate error for the unknown key `nope`. -/
theorem c3_witness :
    ((("k1" : String) ≠ "" ∧
      sExCached.idem.find? (fun q2 => q2.key == "k1") = some recEx) ∧
     errorHandler sExCached (.pg "23505") (some "k1") =
       { status := 200, success := true, errorCode := none,
         payload := some recEx.response,
         note := some "Idempotent replay - original response returned" }) ∧
    ((("nope" : String) ≠ "" ∧
      sExCached.idem.find? (fun q2 => q2.key == "nope") = none) ∧
     errorHandler sExCached (.pg "23505") (some "nope") = duplicateResponse) :=
  ⟨⟨⟨by decide, by decide⟩,
    (c3_duplicate_key_recovery sExCached "k1" recEx (by decide)).1 (by decide)⟩,
   ⟨⟨by decide, by decide⟩,
    (c3_duplicate_key_recovery sExCached "nope" recEx (by decide)).2 (by decide)⟩⟩

/-- The id projection of a successful lock result is duplicate-free
(needed because the select of a primary-keyed table returns each matching
row once). -/
theorem lockWalletsInOrder_nodup_ids {s : DBState} {walletIds : List String}
    {rows : List Wallet}
    (hnd : (s.wallets.map (fun w => w.id)).Nodup)
    (h : lockWalletsInOrder s walletIds = .ok rows) :
    (rows.map (fun w => w.id)).Nodup := by
  obtain ⟨hrows_eq, -⟩ := lockWalletsInOrder_ok_inv h
  have hfsub : (s.wallets.filter (fun w =>
      (List.insertionSort strLeRel walletIds).contains w.id)).Sublist s.wallets :=
    List.filter_sublist _
  have hnd_f := List.Nodup.sublist (hfsub.map (fun w => w.id)) hnd
  have hperm : rows.Perm (s.wallets.filter (fun w =>
      (List.insertionSort strLeRel walletIds).contains w.id)) := by
    rw [hrows_eq]
    exact List.perm_insertionSort _ _
  exact ((hperm.map (fun w => w.id)).nodup_iff).mpr hnd_f

/-- The lock select's filter over the sorted ids equals the filter over
the raw ids (sorting does not change membership). -/
theorem lock_filter_eq (s : DBState) (walletIds : List String) :
    s.wallets.filter (fun w => (List.insertionSort strLeRel walletIds).contains w.id) =
      s.wallets.filter (fun w => walletIds.contains w.id) := by
  apply List.filter_congr
  intro w _
  by_cases hm : w.id ∈ walletIds
  · have ha : w.id ∈ List.insertionSort strLeRel walletIds :=
      (List.perm_insertionSort strLeRel walletIds).mem_iff.mpr hm
    simp [hm, ha]
  · have hna : ¬ w.id ∈ List.insertionSort strLeRel walletIds := fun hh =>
      hm ((List.perm_insertionSort strLeRel walletIds).mem_iff.mp hh)
    simp [hm, hna]

/-- C5 counterexample: the claim says a list of existing wallet ids with
duplicates succeeds on the deduplicated set, but `lockWalletsInOrder`
does not deduplicate: the duplicated id of the existing wallet `w1`
fails with `NotFound`. -/
theorem c5_counterexample :
    (∀ i ∈ ["w1", "w1"], ∃ w ∈ sEx.wallets, w.id = i) ∧
    lockWalletsInOrder sEx ["w1", "w1"] =
      .error (.NotFound "Wallet" "One or more wallets not found in: w1, w1") := by
  constructor
  · decide
  · rfl

/-- C5 (amended): `lockWalletsInOrder` sorts the ids without
deduplicating, returns the matching rows sorted ascending by id, fails
with `NotFound` exactly when the matching row count differs from the raw
input length (so duplicate ids always fail), and on success the rows are
exactly the wallets named by the input, retrievable by id from the
returned map. -/
theorem c5_lock_order_amended (s : DBState) (walletIds : List String) :
    (∀ rows, lockWalletsInOrder s walletIds = .ok rows →
       List.Sorted walletLe rows ∧
       rows.length = walletIds.length ∧
       (∀ w, w ∈ rows ↔ (w ∈ s.wallets ∧ w.id ∈ walletIds))) ∧
    ((∃ msg, lockWalletsInOrder s walletIds = .error (.NotFound "Wallet" msg)) ↔
       (s.wallets.filter (fun w => walletIds.contains w.id)).length ≠ walletIds.length) ∧
    ((s.wallets.map (fun w => w.id)).Nodup →
       ∀ rows, lockWalletsInOrder s walletIds = .ok rows →
         ∀ i ∈ walletIds, ∃ w, walletMapGet rows i = some w ∧ w.id = i) := by
  refine ⟨?_, ?_, ?_⟩
  · intro rows h
    obtain ⟨hrows_eq, hlen⟩ := lockWalletsInOrder_ok_inv h
    refine ⟨?_, hlen, lockWalletsInOrder_mem h⟩
    rw [hrows_eq]
    exact List.sorted_insertionSort walletLe _
  · constructor
    · rintro ⟨msg, hmsg⟩
      simp only [lockWalletsInOrder] at hmsg
      split at hmsg
      · next hll =>
        rw [(List.perm_insertionSort walletLe _).length_eq, lock_filter_eq] at hll
        exact hll
      · simp at hmsg
    · intro hcnt
      refine ⟨"One or more wallets not found in: " ++ String.intercalate ", " walletIds, ?_⟩
      have hll : (List.insertionSort walletLe (s.wallets.filter (fun w =>
          (List.insertionSort strLeRel walletIds).contains w.id))).length ≠
          walletIds.length := by
        rw [(List.perm_insertionSort walletLe _).length_eq, lock_filter_eq]
        exact hcnt
      simp only [lockWalletsInOrder]
      rw [if_pos hll]
  · intro hnd rows h i hi
    cases hfind : walletMapGet rows i with
    | some w =>
      exact ⟨w, rfl, by simpa using List.find?_some hfind⟩
    | none =>
      exfalso
      have hnofind : ∀ w ∈ rows, w.id ≠ i := by
        intro w hw hwid
        have := List.find?_eq_none.mp hfind w hw
        simp [hwid] at this
      obtain ⟨-, hlen⟩ := lockWalletsInOrder_ok_inv h
      have hmemchar := lockWalletsInOrder_mem h
      have hsub : ∀ x ∈ rows.map (fun w => w.id), x ∈ walletIds := by
        intro x hx
        obtain ⟨w, hw, rfl⟩ := List.mem_map.mp hx
        exact ((hmemchar w).mp hw).2
      have hndrows : (rows.map (fun w => w.id)).Nodup :=
        lockWalletsInOrder_nodup_ids hnd h
      have hinotin : i ∉ rows.map (fun w => w.id) := by
        intro hx
        obtain ⟨w, hw, hwid⟩ := List.mem_map.mp hx
        exact hnofind w hw hwid
      have h1 : (rows.map (fun w => w.id)).toFinset.card = walletIds.length := by
        rw [List.toFinset_card_of_nodup hndrows]
        simpa [List.length_map] using hlen
      have hie : i ∈ walletIds.toFinset := List.mem_toFinset.mpr hi
      have hsubfin : (rows.map (fun w => w.id)).toFinset ⊆ walletIds.toFinset.erase i := by
        intro x hx
        rw [List.mem_toFinset] at hx
        refine Finset.mem_erase.mpr ⟨?_, List.mem_toFinset.mpr (hsub x hx)⟩
        rintro rfl
        exact hinotin hx
      have hcard := Finset.card_le_card hsubfin
      have herase : (walletIds.toFinset.erase i).card = walletIds.toFinset.card - 1 :=
        Finset.card_erase_of_mem hie
      have hpos : 0 < walletIds.toFinset.card := Finset.card_pos.mpr ⟨i, hie⟩
      have h3 : walletIds.toFinset.card ≤ walletIds.length := List.toFinset_card_le walletIds
      omega

/-- Witness for C5 (amended) at the fixture store with the Treasury and
Alice wallets. -/
theorem c5_witness :
    (lockWalletsInOrder sEx ["w2", "w1"] = .ok [wAlice, wTreas] ∧
     List.Sorted walletLe [wAlice, wTreas] ∧
     ([wAlice, wTreas] : List Wallet).length = (["w2", "w1"] : List String).length ∧
     (∀ w, w ∈ [wAlice, wTreas] ↔ (w ∈ sEx.wallets ∧ w.id ∈ ["w2", "w1"]))) ∧
    ((sEx.wallets.map (fun w => w.id)).Nodup ∧
     ∀ i ∈ ["w2", "w1"], ∃ w, walletMapGet [wAlice, wTreas] i = some w ∧ w.id = i) :=
  ⟨⟨by rfl,
    ((c5_lock_order_amended sEx ["w2", "w1"]).1 [wAlice, wTreas] (by rfl)).1,
    ((c5_lock_order_amended sEx ["w2", "w1"]).1 [wAlice, wTreas] (by rfl)).2.1,
    ((c5_lock_order_amended sEx ["w2", "w1"]).1 [wAlice, wTreas] (by rfl)).2.2⟩,
   ⟨by decide,
    (c5_lock_order_amended sEx ["w2", "w1"]).2.2 (by decide) [wAlice, wTreas] (by rfl)⟩⟩

/-- C6: each of `topUp`, `issueBonus` and `purchase` fails with
`Validation` — before any transaction is opened (the trace is empty and
the store untouched) — exactly when `userId` is empty, `assetCode` is
empty, or `amount` is not a strictly positive integer; with valid inputs
the operation never fails with `Validation`. -/
theorem c6_validation (k : OpKind) (args : OpArgs) (s : DBState) (txnId : String) :
    ((args.userId = "" ∨ args.assetCode = "" ∨ ¬ (args.amount.den = 1 ∧ 0 < args.amount)) →
       ∃ msg, runOp k args s txnId = (.error (.Validation msg), s, [])) ∧
    (args.userId ≠ "" → args.assetCode ≠ "" → args.amount.den = 1 → 0 < args.amount →
       ∀ msg s' tr, runOp k args s txnId ≠ (.error (.Validation msg), s', tr)) := by
  constructor
  · intro hbad
    cases k
    all_goals
      simp only [runOp, topUp, issueBonus, purchase]
      by_cases h1 : args.userId = ""
      · exact ⟨"userId is required", by rw [if_pos h1]⟩
      · by_cases h2 : args.assetCode = ""
        · exact ⟨"assetCode is required", by rw [if_neg h1, if_pos h2]⟩
        · have h3 : ¬ (args.amount.den = 1 ∧ 0 < args.amount) := by
            rcases hbad with hh | hh | hh
            · exact absurd hh h1
            · exact absurd hh h2
            · exact hh
          exact ⟨"amount must be a positive integer", by rw [if_neg h1, if_neg h2, if_pos h3]⟩
  · intro h1 h2 h3 h4 msg s' tr hcon
    cases k
    all_goals
      simp only [runOp, topUp, issueBonus, purchase] at hcon
      rw [if_neg h1, if_neg h2, if_neg (not_not_intro ⟨h3, h4⟩)] at hcon
      obtain ⟨ev, hfn⟩ := withTransaction_error_fn hcon
      split at hfn
      · simp at hfn
      · split at hfn
        · next e heq =>
          obtain ⟨ident, hsh⟩ := findWallet_error_shape heq
          subst hsh
          simp at hfn
        · split at hfn
          · next e heq =>
            obtain ⟨ident, hsh⟩ := findWallet_error_shape heq
            subst hsh
            simp at hfn
          · split at hfn
            · next e heq =>
              rcases executeTransfer_error_shape heq with ⟨ident, hsh⟩ | hsh | ⟨wid, m, av, hsh⟩ <;>
                (subst hsh; simp at hfn)
            · simp at hfn

/-- Witness for C6: `amount = 0` and `amount = 7/2` are rejected with
`Validation` and an empty trace; the valid fixture request is never a
`Validation` failure. -/
theorem c6_witness :
    ((argsBad.userId = "" ∨ argsBad.assetCode = "" ∨
        ¬ (argsBad.amount.den = 1 ∧ 0 < argsBad.amount)) ∧
     (∃ msg, runOp .topUpOp argsBad sEx "t1" = (.error (.Validation msg), sEx, []))) ∧
    ((argsHalf.userId = "" ∨ argsHalf.assetCode = "" ∨
        ¬ (argsHalf.amount.den = 1 ∧ 0 < argsHalf.amount)) ∧
     (∃ msg, runOp .purchaseOp argsHalf sEx "t1" = (.error (.Validation msg), sEx, []))) ∧
    ((argsEx.userId ≠ "" ∧ argsEx.assetCode ≠ "" ∧
        argsEx.amount.den = 1 ∧ 0 < argsEx.amount) ∧
     (∀ msg s' tr, runOp .bonusOp argsEx sEx "t1" ≠ (.error (.Validation msg), s', tr))) :=
  ⟨⟨by decide, (c6_validation .topUpOp argsBad sEx "t1").1 (by decide)⟩,
   ⟨by decide, (c6_validation .purchaseOp argsHalf sEx "t1").1 (by decide)⟩,
   ⟨⟨by decide, by decide, by decide, by decide⟩,
    (c6_validation .bonusOp argsEx sEx "t1").2 (by decide) (by decide) (by decide) (by decide)⟩⟩

/-- C7: the mutation endpoints (idempotency middleware before each of
`topUp`, `issueBonus`, `purchase`) reject a supplied idempotency key that
is not a string or whose length exceeds 255 with the `Validation` kind
before the service runs, and pass any supplied string key of length at
most 255 through to the operation. -/
theorem c7_idempotency_key_length (k : OpKind) (args : OpArgs) (s : DBState)
    (txnId : String) (str : String) :
    (255 < str.length →
       transferEndpoint k (some (.str str)) args s txnId =
         (.error (.Validation "Idempotency-Key must be a string with max 255 characters"),
          s, [])) ∧
    (str.length ≤ 255 → str ≠ "" →
       transferEndpoint k (some (.str str)) args s txnId =
         runOp k { args with idempotencyKey := some str } s txnId) ∧
    (transferEndpoint k (some .nonString) args s txnId =
       (.error (.Validation "Idempotency-Key must be a string with max 255 characters"),
        s, [])) := by
  refine ⟨?_, ?_, ?_⟩
  · intro hlong
    have hne0 : str ≠ "" := by
      intro hh
      subst hh
      simp at hlong
    have htr : jsTruthy (.str str) = true := by simp [jsTruthy, hne0]
    simp [transferEndpoint, idempotencyMiddleware, htr, hlong]
  · intro hle hne0
    have htr : jsTruthy (.str str) = true := by simp [jsTruthy, hne0]
    have hnl : ¬ 255 < str.length := not_lt.mpr hle
    simp [transferEndpoint, idempotencyMiddleware, htr, hnl]
  · simp [transferEndpoint, idempotencyMiddleware, jsTruthy]

set_option maxRecDepth 8000 in
/-- Witness for C7: a 256-character key is rejected, a 255-character key
is passed through to the service. -/
theorem c7_witness :
    (255 < key256.length ∧
     transferEndpoint .topUpOp (some (.str key256)) argsEx sEx "t1" =
       (.error (.Validation "Idempotency-Key must be a string with max 255 characters"),
        sEx, [])) ∧
    (key255.length ≤ 255 ∧ key255 ≠ "" ∧
     transferEndpoint .bonusOp (some (.str key255)) argsEx sEx "t1" =
       runOp .bonusOp { argsEx with idempotencyKey := some key255 } sEx "t1") :=
  ⟨⟨by decide,
    (c7_idempotency_key_length .topUpOp argsEx sEx "t1" key256).1 (by decide)⟩,
   ⟨by decide, by decide,
    (c7_idempotency_key_length .bonusOp argsEx sEx "t1" key255).2.1
      (by decide) (by decide)⟩⟩

/-- C8 counterexample: the claim says the effective limit always lies in
[1, 100] and the effective offset is always nonnegative, but the route's
`Math.min(parseInt(limit) || 20, 100)` does not clamp negative values: a
supplied `limit = -1` (resp. `offset = -1`) is passed through negative,
and the store then rejects the query. -/
theorem c8_counterexample :
    effLimit (some (-1)) = -1 ∧ ¬ (1 ≤ effLimit (some (-1))) ∧
    effOffset (some (-1)) = -1 ∧ ¬ (0 ≤ effOffset (some (-1))) ∧
    getTransactionsRoute sEx "alice" none (some (-1)) none = .error .internal := by
  refine ⟨by decide, by decide, by decide, by decide, by rfl⟩

/-- C8 (amended): `getTransactions` returns the user's ledger-joined
history newest first; the route's effective limit defaults to 20 when the
limit parameter is absent, non-numeric or 0, is clamped to 100 when
above 100, and lies in [1, 100] whenever the supplied value is
nonnegative — a negative supplied limit or offset is passed through
unclamped; the effective offset defaults to 0 and is nonnegative whenever
the supplied value is. -/
theorem c8_pagination_amended (limitQ offsetQ : Option Int) (s : DBState)
    (userId : String) (assetCode : Option String) :
    ((limitQ = none ∨ limitQ = some 0) → effLimit limitQ = 20) ∧
    ((∀ n, limitQ = some n → 0 ≤ n) → 1 ≤ effLimit limitQ ∧ effLimit limitQ ≤ 100) ∧
    (∀ n, limitQ = some n → 100 < n → effLimit limitQ = 100) ∧
    (effOffset none = 0 ∧ ((∀ n, offsetQ = some n → 0 ≤ n) → 0 ≤ effOffset offsetQ)) ∧
    (getTransactionsRoute s userId assetCode limitQ offsetQ =
       getTransactions s userId assetCode (effLimit limitQ) (effOffset offsetQ)) ∧
    (∀ limit offset rows, getTransactions s userId assetCode limit offset = .ok rows →
       List.Sorted txnRowDesc rows) := by
  refine ⟨?_, ?_, ?_, ⟨rfl, ?_⟩, rfl, ?_⟩
  · rintro (hq | hq) <;> subst hq <;> decide
  · intro hn
    cases hq : limitQ with
    | none => decide
    | some n =>
      have h0 := hn n hq
      by_cases hz : n = 0
      · subst hz; decide
      · simp only [effLimit, hz, if_false]
        constructor <;> omega
  · intro n hq hlt
    subst hq
    have hz : ¬ n = 0 := by omega
    simp only [effLimit, hz, if_false]
    omega
  · intro hn
    cases hq : offsetQ with
    | none => decide
    | some n =>
      have h0 := hn n hq
      simpa [effOffset] using h0
  · intro limit offset rows h
    simp only [getTransactions] at h
    split at h
    · simp at h
    · split at h
      · simp at h
      · injection h with h1
        rw [← h1]
        have hs := List.sorted_insertionSort txnRowDesc (txnJoinRows s userId assetCode)
        exact List.Pairwise.sublist
          ((List.take_sublist _ _).trans (List.drop_sublist _ _)) hs

/-- Witness for C8 (amended): limit 150 is clamped to 100, offset 3 is
accepted, and the empty fixture history is (vacuously) sorted newest
first. -/
theorem c8_witness :
    effLimit (some 150) = 100 ∧
    (1 ≤ effLimit (some 150) ∧ effLimit (some 150) ≤ 100) ∧
    effLimit (some 0) = 20 ∧
    0 ≤ effOffset (some 3) ∧
    List.Sorted txnRowDesc ([] : List TxnRow) :=
  ⟨(c8_pagination_amended (some 150) (some 3) sEx "alice" none).2.2.1 150 rfl (by decide),
   (c8_pagination_amended (some 150) (some 3) sEx "alice" none).2.1
     (fun n hn => by injection hn with hh; omega),
   (c8_pagination_amended (some 0) none sEx "alice" none).1 (.inr rfl),
   ((c8_pagination_amended (some 150) (some 3) sEx "alice" none).2.2.2.1).2
     (fun n hn => by injection hn with hh; omega),
   (c8_pagination_amended (some 150) (some 3) sEx "alice" none).2.2.2.2.2 20 0 []
     (by rfl)⟩

theorem withTransaction_ok_fn {α : Type} {s : DBState}
    {fn : DBState → Except Err (α × DBState) × List Event}
    {a : α} {s1 : DBState} {tr : List Event}
    (h : withTransaction s fn = (.ok a, s1, tr)) :
    ∃ ev, fn s = (.ok (a, s1), ev) := by
  unfold withTransaction at h
  split at h
  · next a' s1' ev heq =>
    simp only [Prod.mk.injEq] at h
    obtain ⟨h1, h2, -⟩ := h
    obtain rfl : a' = a := by simpa using h1
    subst h2
    exact ⟨ev, heq⟩
  · simp only [Prod.mk.injEq] at h
    exact absurd h.1 (by simp)

/-- C9: on every successful fresh (non-replayed) call, `topUp` and
`issueBonus` record a transfer from the Treasury wallet of the asset to
the user's wallet with kinds `TOPUP` and `BONUS`, and `purchase` records
a transfer from the user's wallet to the Revenue wallet with kind
`PURCHASE`. -/
theorem c9_directions :
    (∀ (args : OpArgs) (s : DBState) (txnId : String) (r : OpResult) (s' : DBState)
       (tr : List Event),
       topUp args s txnId = (.ok r, s', tr) → r.idempotent = false →
       ∃ uw sysw t, findWallet s args.userId args.assetCode = .ok uw ∧
         findWallet s TREASURY args.assetCode = .ok sysw ∧
         s'.transactions = s.transactions ++ [t] ∧
         t.transaction_type = "TOPUP" ∧
         t.source_wallet_id = sysw.id ∧ t.dest_wallet_id = uw.id) ∧
    (∀ (args : OpArgs) (s : DBState) (txnId : String) (r : OpResult) (s' : DBState)
       (tr : List Event),
       issueBonus args s txnId = (.ok r, s', tr) → r.idempotent = false →
       ∃ uw sysw t, findWallet s args.userId args.assetCode = .ok uw ∧
         findWallet s TREASURY args.assetCode = .ok sysw ∧
         s'.transactions = s.transactions ++ [t] ∧
         t.transaction_type = "BONUS" ∧
         t.source_wallet_id = sysw.id ∧ t.dest_wallet_id = uw.id) ∧
    (∀ (args : OpArgs) (s : DBState) (txnId : String) (r : OpResult) (s' : DBState)
       (tr : List Event),
       purchase args s txnId = (.ok r, s', tr) → r.idempotent = false →
       ∃ uw sysw t, findWallet s args.userId args.assetCode = .ok uw ∧
         findWallet s REVENUE args.assetCode = .ok sysw ∧
         s'.transactions = s.transactions ++ [t] ∧
         t.transaction_type = "PURCHASE" ∧
         t.source_wallet_id = uw.id ∧ t.dest_wallet_id = sysw.id) := by
  refine ⟨?_, ?_, ?_⟩
  all_goals
    intro args s txnId r s' tr h hidem
    simp only [topUp, issueBonus, purchase] at h
    split at h
    · simp at h
    · split at h
      · simp at h
      · split at h
        · simp at h
        · obtain ⟨ev, hfn⟩ := withTransaction_ok_fn h
          split at hfn
          · next cached hc =>
            simp only [Prod.mk.injEq, Except.ok.injEq] at hfn
            obtain ⟨⟨h1, -⟩, -⟩ := hfn
            rw [← h1] at hidem
            simp at hidem
          · split at hfn
            · simp at hfn
            · next userWallet hequ =>
              split at hfn
              · simp at hfn
              · next sysWallet heqs =>
                split at hfn
                · simp at hfn
                · next result s1 heqx =>
                  simp only [Prod.mk.injEq, Except.ok.injEq] at hfn
                  obtain ⟨⟨h1, h2⟩, -⟩ := hfn
                  obtain ⟨rows, sw, dw, -, -, -, -, -, -, hts, -, -, -⟩ :=
                    executeTransfer_ok_inv heqx
                  have htr2 : s'.transactions = s1.transactions := by
                    rw [← h2]
                    exact (storeIdempotencyKey_keeps).2.1
                  exact ⟨userWallet, sysWallet, _, hequ, heqs, htr2.trans hts, rfl, rfl, rfl⟩

/-- Witness for C9: the fixture top-up records a Treasury → Alice
transaction of kind `TOPUP`. -/
theorem c9_witness :
    (topUp argsEx sEx "t1" =
       (.ok { response := rEx1, idempotent := false }, sEx2,
        [Event.beginTx, Event.idemLookup none,
         Event.walletLookup "alice" "GOLD_COINS",
         Event.walletLookup TREASURY "GOLD_COINS",
         Event.locked ["w2", "w1"], Event.idemStore none, Event.commitTx]) ∧
     ({ response := rEx1, idempotent := false } : OpResult).idempotent = false) ∧
    (∃ uw sysw t, findWallet sEx argsEx.userId argsEx.assetCode = .ok uw ∧
       findWallet sEx TREASURY argsEx.assetCode = .ok sysw ∧
       sEx2.transactions = sEx.transactions ++ [t] ∧
       t.transaction_type = "TOPUP" ∧
       t.source_wallet_id = sysw.id ∧ t.dest_wallet_id = uw.id) :=
  ⟨⟨by rfl, by decide⟩,
   c9_directions.1 argsEx sEx "t1" { response := rEx1, idempotent := false } sEx2
     [Event.beginTx, Event.idemLookup none,
      Event.walletLookup "alice" "GOLD_COINS",
      Event.walletLookup TREASURY "GOLD_COINS",
      Event.locked ["w2", "w1"], Event.idemStore none, Event.commitTx]
     (by rfl) (by decide)⟩

theorem getBalance_error_iff (s : DBState) (userId : String) (ac : Option String)
    (huid : userId ≠ "") :
    getBalance s userId ac = .error (.NotFound "Wallet" userId) ↔
      balanceJoinRows s userId ac = [] := by
  simp only [getBalance]
  rw [if_neg huid]
  by_cases hz : (List.insertionSort balanceRowLe (balanceJoinRows s userId ac)).length = 0
  · rw [if_pos hz]
    have hlen := (List.perm_insertionSort balanceRowLe (balanceJoinRows s userId ac)).length_eq
    rw [hlen] at hz
    have hj : balanceJoinRows s userId ac = [] := List.length_eq_zero.mp hz
    simp [hj]
  · rw [if_neg hz]
    constructor
    · intro h
      simp at h
    · intro hj
      exfalso
      apply hz
      rw [hj]
      rfl

theorem balanceJoinRows_nil_iff (s : DBState) (userId : String) (ac : Option String) :
    balanceJoinRows s userId ac = [] ↔
      ∀ w ∈ s.wallets, w.user_id = userId →
        (match ac with
         | some c => assetCodeOf s w ≠ some c
         | none => assetCodeOf s w = none) := by
  unfold balanceJoinRows
  rw [List.filterMap_eq_nil_iff]
  constructor
  · intro h w hw huser
    have hwf : w ∈ s.wallets.filter (fun w => w.user_id == userId) :=
      List.mem_filter.mpr ⟨hw, by simp [huser]⟩
    have hno := h w hwf
    cases hfa : s.assetTypes.find? (fun a => a.id == w.asset_type_id) with
    | none =>
      cases ac with
      | some c => simp [assetCodeOf, hfa]
      | none => simp [assetCodeOf, hfa]
    | some a =>
      rw [hfa] at hno
      cases ac with
      | some c =>
        intro hcode
        have hac : a.code = c := by
          rw [assetCodeOf, hfa] at hcode
          simpa using hcode
        simp [hac] at hno
      | none => simp at hno
  · intro h w hwf
    obtain ⟨hw, huser'⟩ := List.mem_filter.mp hwf
    have huser : w.user_id = userId := by simpa using huser'
    have hh := h w hw huser
    cases hfa : s.assetTypes.find? (fun a => a.id == w.asset_type_id) with
    | none => simp [hfa]
    | some a =>
      cases ac with
      | some c =>
        have hac : ¬ a.code = c := by
          intro hc
          apply hh
          rw [assetCodeOf, hfa]
          simp [hc]
        simp [hfa, hac]
      | none =>
        exfalso
        rw [assetCodeOf, hfa] at hh
        simp at hh

/-- C10: with an asset code supplied, `getBalance` fails with `NotFound`
exactly when the user has no wallet for that asset (even when wallets for
other assets exist); with the code omitted it fails with `NotFound`
exactly when the user has no wallets at all (under referential integrity
of `asset_type_id`), and otherwise returns every wallet balance of the
user ordered by asset code. -/
theorem c10_get_balance (s : DBState) (userId : String) (code : String)
    (huid : userId ≠ "") :
    ((getBalance s userId (some code) = .error (.NotFound "Wallet" userId)) ↔
       ¬ ∃ w, w ∈ s.wallets ∧ w.user_id = userId ∧ assetCodeOf s w = some code) ∧
    ((∀ w ∈ s.wallets, (assetCodeOf s w).isSome) →
       ((getBalance s userId none = .error (.NotFound "Wallet" userId)) ↔
          ¬ ∃ w, w ∈ s.wallets ∧ w.user_id = userId)) ∧
    ((∀ w ∈ s.wallets, (assetCodeOf s w).isSome) →
       ∀ rows, getBalance s userId none = .ok rows →
         List.Sorted balanceRowLe rows ∧
         ∀ w ∈ s.wallets, w.user_id = userId →
           ∃ rrow, rrow ∈ rows ∧ rrow.walletId = w.id ∧ rrow.balance = w.balance) := by
  refine ⟨?_, ?_, ?_⟩
  · rw [getBalance_error_iff s userId (some code) huid, balanceJoinRows_nil_iff]
    constructor
    · rintro h ⟨w, hw, hu, hc⟩
      exact h w hw hu hc
    · intro h w hw hu hc
      exact h ⟨w, hw, hu, hc⟩
  · intro hFK
    rw [getBalance_error_iff s userId none huid, balanceJoinRows_nil_iff]
    constructor
    · rintro h ⟨w, hw, hu⟩
      have hnone := h w hw hu
      have hsome := hFK w hw
      rw [hnone] at hsome
      simp at hsome
    · intro h w hw hu
      exact absurd ⟨w, hw, hu⟩ h
  · intro hFK rows h
    simp only [getBalance] at h
    rw [if_neg huid] at h
    split at h
    · simp at h
    · injection h with h1
      constructor
      · rw [← h1]
        exact List.sorted_insertionSort balanceRowLe _
      · intro w hw hu
        have hsome := hFK w hw
        cases hfa : s.assetTypes.find? (fun a => a.id == w.asset_type_id) with
        | none =>
          rw [assetCodeOf, hfa] at hsome
          simp at hsome
        | some a =>
          have hrow :
              ({ walletId := w.id, assetCode := a.code, assetName := a.name,
                 balance := w.balance } : BalanceRow) ∈ balanceJoinRows s userId none := by
            unfold balanceJoinRows
            apply List.mem_filterMap.mpr
            refine ⟨w, List.mem_filter.mpr ⟨hw, by simp [hu]⟩, ?_⟩
            rw [hfa]
            rfl
          refine ⟨{ walletId := w.id, assetCode := a.code, assetName := a.name,
                    balance := w.balance }, ?_, rfl, rfl⟩
          rw [← h1]
          exact (List.perm_insertionSort balanceRowLe _).mem_iff.mpr hrow

/-- Witness for C10 at the fixture: Alice holds a GOLD_COINS wallet but
no DIAMONDS wallet, so the asset-filtered lookup is `NotFound` while the
unfiltered one returns her single balance row. -/
theorem c10_witness :
    (("alice" : String) ≠ "" ∧
     (¬ ∃ w, w ∈ sEx.wallets ∧ w.user_id = "alice" ∧ assetCodeOf sEx w = some "DIAMONDS") ∧
     getBalance sEx "alice" (some "DIAMONDS") = .error (.NotFound "Wallet" "alice")) ∧
    ((∀ w ∈ sEx.wallets, (assetCodeOf sEx w).isSome) ∧
     getBalance sEx "alice" none =
       .ok [{ walletId := "w1", assetCode := "GOLD_COINS", assetName := "Gold Coins",
              balance := 100 }] ∧
     List.Sorted balanceRowLe
       [{ walletId := "w1", assetCode := "GOLD_COINS", assetName := "Gold Coins",
          balance := 100 }]) :=
  ⟨⟨by decide, by decide,
    (c10_get_balance sEx "alice" "DIAMONDS" (by decide)).1.mpr (by decide)⟩,
   ⟨by decide, by rfl,
    ((c10_get_balance sEx "alice" "DIAMONDS" (by decide)).2.2 (by decide)
      [{ walletId := "w1", assetCode := "GOLD_COINS", assetName := "Gold Coins",
         balance := 100 }] (by rfl)).1⟩⟩

end WalletSpec
